import Mathlib

/-!
Verification development for the `TimeTravel` temporal-navigation controller of
the `ui-components` repository (src/unnamed/part_005).

Embedding conventions:
* Timestamps are modelled as integer milliseconds since the UTC epoch (`Int`).
  The source represents them as fixed-format ISO-8601 UTC strings produced by
  `formattedTimestamp`; on such strings lexicographic comparison (used by
  `clampedTimestamp`) agrees with chronological order, so the `Int` model is
  order-faithful.
* Durations and pixel quantities are JavaScript numbers; they are modelled as
  `ℚ`.  Every arithmetic operation appearing in the source (difference,
  division by the constants 400 and 3, multiplication by 0.1, comparison,
  lodash `clamp`) is exact on the rational inputs of the claims, so no
  floating-point rounding is observable in any statement below.
* React `this.state` is the `State` structure.  `setState` calls inside one
  handler are modelled as sequential functional updates; this is faithful
  because every handler only reads fields it has not itself just written
  (React's `this.state` is not updated synchronously, and the handlers of this
  component never read back a field written earlier in the same handler).
* The lodash `debounce` wrapper `delayedOnChangeTimestamp` is modelled as a
  pending slot `pendingChange : Option Int`: invoking the debounced function
  replaces the slot, `.cancel()` empties it, and the timer firing
  (`flushChange`) delivers the slot's value and empties it.  A cancelled
  delivery therefore never fires.  `delayedReportZoom` is modelled as the flag
  `pendingZoomReport`.
* Callback invocations (`onChangeTimestamp`, `onChangeLiveMode`) are recorded
  as traces, in invocation order.  Pure tracking hooks (`onTimelinePan`,
  `onTimelineLabelClick`, `onTimelinePanButtonClick`, `onTimestampInputEdit`)
  carry no state and are omitted.
-/

namespace TimeTravel

/-- Modelled from the spec: the repository's `formattedTimestamp`
(`src/utils/timeline`, not present under `src/`) normalizes a timestamp to a
fixed-format UTC ISO-8601 string (§6: "all internal computation normalizes to
UTC").  In the integer-milliseconds embedding it is the identity. -/
def formattedTimestamp (t : Int) : Int := t

/-- lodash `clamp(number, lower, upper)`: first caps at `upper`, then raises to
`lower` (so `lower` wins if `lower > upper`). -/
def clamp (x lo hi : ℚ) : ℚ :=
  let x1 := if x ≤ hi then x else hi
  if lo ≤ x1 then x1 else lo

/-- Source `availableTimelineDurationMs(earliestTimestamp)`: the span between
the earliest timestamp and the current time (the source reads the clock via
`formattedTimestamp()`; the clock reading is the explicit `now` argument). -/
def availableTimelineDurationMs (earliestTimestamp now : Int) : ℚ :=
  ((formattedTimestamp now - earliestTimestamp : Int) : ℚ)

/-- Source `minDurationMsPerTimelinePx()`: 500 ms per pixel. -/
def minDurationMsPerTimelinePx : ℚ := 500

/-- Source `maxDurationMsPerTimelinePx(earliestTimestamp)`: the available span
over 400 px, clamped between the 500 ms floor and a 3-day (259,200,000 ms)
ceiling. -/
def maxDurationMsPerTimelinePx (earliestTimestamp now : Int) : ℚ :=
  let durationMsLowerBound := minDurationMsPerTimelinePx
  let durationMsUpperBound : ℚ := 259200000
  let durationMs := availableTimelineDurationMs earliestTimestamp now / 400
  clamp durationMs durationMsLowerBound durationMsUpperBound

/-- Source `initialDurationMsPerTimelinePx(earliestTimestamp)`: 10% of the
maximum zoom-out, clamped between the 500 ms floor and a 1-minute
(60,000 ms) ceiling. -/
def initialDurationMsPerTimelinePx (earliestTimestamp now : Int) : ℚ :=
  let durationMsLowerBound := minDurationMsPerTimelinePx
  let durationMsUpperBound : ℚ := 60000
  let durationMs := maxDurationMsPerTimelinePx earliestTimestamp now * (1 / 10)
  clamp durationMs durationMsLowerBound durationMsUpperBound

/-- The component's props that feed state logic.  Callback props are modelled
as traces on `Component`; pure tracking hooks are omitted. -/
structure Props where
  timestamp : Option Int
  earliestTimestamp : Int
  hasLiveMode : Bool
  showingLive : Bool
  hasRangeSelector : Bool
  rangeMs : ℚ
deriving Repr, DecidableEq

/-- Source `TimeTravel.defaultProps`: `earliestTimestamp` is
'2014-01-01T00:00:00Z' (1,388,534,400,000 ms), `hasLiveMode` false,
`showingLive` true, `hasRangeSelector` false, `rangeMs` one hour.  The
`timestamp` prop has no default (it may be null). -/
def defaultProps (timestamp : Option Int) : Props :=
  { timestamp := timestamp
    earliestTimestamp := 1388534400000
    hasLiveMode := false
    showingLive := true
    hasRangeSelector := false
    rangeMs := 3600000 }

/-- React `this.state` of the source component. -/
structure State where
  timestampNow : Int
  focusedTimestamp : Int
  durationMsPerPixel : ℚ
  showingLive : Bool
  rangeMs : ℚ
  timelineWidthPx : ℚ
deriving Repr, DecidableEq

/-- The component together with its deferred-delivery resources and the trace
of callback invocations. -/
structure Component where
  state : State
  /-- Pending argument of the debounced `delayedOnChangeTimestamp`, if any. -/
  pendingChange : Option Int
  /-- All `onChangeTimestamp` invocations so far (immediate or debounced). -/
  changeCalls : List Int
  /-- All `onChangeLiveMode` invocations so far. -/
  liveModeCalls : List Bool
  /-- Whether a debounced `delayedReportZoom` call is pending. -/
  pendingZoomReport : Bool
deriving Repr, DecidableEq

/-- Source constructor: `timestampNow` from the clock, `focusedTimestamp` from
the `timestamp` prop (the clock when the prop is null, matching
`formattedTimestamp(null)` returning the formatted current time), initial zoom
from `initialDurationMsPerTimelinePx`, `showingLive` and `rangeMs` from props,
width 1; no pending debounced calls, no callbacks invoked yet. -/
def initialComponent (p : Props) (now : Int) : Component :=
  { state :=
      { timestampNow := formattedTimestamp now
        focusedTimestamp := formattedTimestamp (p.timestamp.getD now)
        durationMsPerPixel := initialDurationMsPerTimelinePx p.earliestTimestamp now
        showingLive := p.showingLive
        rangeMs := p.rangeMs
        timelineWidthPx := 1 }
    pendingChange := none
    changeCalls := []
    liveModeCalls := []
    pendingZoomReport := false }

/-- Source `clampedTimestamp(rawTimestamp)`: raise to
`props.earliestTimestamp`, then cap at `state.timestampNow`, in that order.
The source skips each bound when it is falsy (null/empty); in this embedding
both bounds are always present, as with the default props. -/
def clampedTimestamp (p : Props) (c : Component) (rawTimestamp : Int) : Int :=
  let timestamp := formattedTimestamp rawTimestamp
  let startTimestamp := p.earliestTimestamp
  let endTimestamp := c.state.timestampNow
  let timestamp1 := if timestamp < startTimestamp then startTimestamp else timestamp
  if endTimestamp < timestamp1 then endTimestamp else timestamp1

/-- Source `clampedDuration(duration)`: lodash clamp between
`minDurationMsPerTimelinePx()` and `maxDurationMsPerTimelinePx(earliest)`;
the latter reads the clock (`now`). -/
def clampedDuration (p : Props) (now : Int) (duration : ℚ) : ℚ :=
  clamp duration minDurationMsPerTimelinePx (maxDurationMsPerTimelinePx p.earliestTimestamp now)

/-- Modelled from the spec: the repository's `getTimeScale`
(`src/utils/timeline`, not present under `src/`) per §4.1 TimeScale:
`pixelOffset(t) = (t - focusedTimestamp) / durationMsPerPixel`.  The value is
signed: negative when `t` lies before the focused timestamp's pixel, positive
after.  Here it gives the pixel offset of `t` under a given focus and zoom. -/
def getTimeScale (focusedTimestamp : Int) (durationMsPerPixel : ℚ) (t : Int) : ℚ :=
  ((t - focusedTimestamp : Int) : ℚ) / durationMsPerPixel

/-- Source `shouldStickySwitchToLiveMode(nextState)`: merge the hypothetical
`focusedTimestamp` (when given) over the current state, compute the pixel
offset of `state.timestampNow` under the merged state, and recommend live
exactly when that offset is `< 10` and live mode is supported and not already
showing live.  Note the comparison is on the signed offset, not its absolute
value. -/
def shouldStickySwitchToLiveMode (p : Props) (c : Component)
    (nextFocusedTimestamp : Option Int) : Bool :=
  let hypFocused := nextFocusedTimestamp.getD c.state.focusedTimestamp
  let timestampCloseToNow :=
    getTimeScale hypFocused c.state.durationMsPerPixel c.state.timestampNow < 10
  timestampCloseToNow && p.hasLiveMode && !c.state.showingLive

/-- Source `setFocusedTimestamp(timestamp)`: clamp; if the clamped value
differs from the current focus, cancel the pending debounced change, invoke
`onChangeTimestamp` immediately with the clamped value and store it; otherwise
do nothing at all (in particular, a pending debounced change survives). -/
def setFocusedTimestamp (p : Props) (c : Component) (timestamp : Int) : Component :=
  let focusedTimestamp := clampedTimestamp p c timestamp
  if focusedTimestamp ≠ c.state.focusedTimestamp then
    { c with
      pendingChange := none
      changeCalls := c.changeCalls ++ [focusedTimestamp]
      state := { c.state with focusedTimestamp := focusedTimestamp } }
  else c

/-- Source `handleTimelineJump(timestamp)`: clear `showingLive`, then
`setFocusedTimestamp` (the `onTimelineLabelClick` tracking hook carries no
state). -/
def handleTimelineJump (p : Props) (c : Component) (timestamp : Int) : Component :=
  let c1 := { c with state := { c.state with showingLive := false } }
  setFocusedTimestamp p c1 timestamp

/-- Source `handleTimelinePanButtonClick(timestamp)`: if the sticky heuristic
(evaluated on the raw, unclamped timestamp) recommends live, set `showingLive`
and focus the current time; otherwise clear `showingLive` and focus the
clicked timestamp, both through `setFocusedTimestamp`. -/
def handleTimelinePanButtonClick (p : Props) (c : Component) (timestamp : Int) : Component :=
  if shouldStickySwitchToLiveMode p c (some timestamp) then
    let c1 := { c with state := { c.state with showingLive := true } }
    setFocusedTimestamp p c1 c1.state.timestampNow
  else
    let c1 := { c with state := { c.state with showingLive := false } }
    setFocusedTimestamp p c1 timestamp

/-- Source `handleTimelineZoom(duration)`: store the clamped duration and
re-arm the debounced zoom telemetry report. -/
def handleTimelineZoom (p : Props) (now : Int) (c : Component) (duration : ℚ) : Component :=
  { c with
    state := { c.state with durationMsPerPixel := clampedDuration p now duration }
    pendingZoomReport := true }

/-- Source `handleTimelinePan(timestamp)`: clamp, clear `showingLive`, store
the clamped focus, and replace the pending debounced `onChangeTimestamp`
argument with it (no immediate delivery). -/
def handleTimelinePan (p : Props) (c : Component) (timestamp : Int) : Component :=
  let focusedTimestamp := clampedTimestamp p c timestamp
  { c with
    state := { c.state with showingLive := false, focusedTimestamp := focusedTimestamp }
    pendingChange := some focusedTimestamp }

/-- Source `handleLiveModeToggle(showingLive)`: store the flag; when turning
on, focus the current time; invoke `onChangeLiveMode`.  It never touches the
pending debounced change and has no `hasLiveMode` guard. -/
def handleLiveModeToggle (p : Props) (c : Component) (showingLive : Bool) : Component :=
  let c1 := { c with state := { c.state with showingLive := showingLive } }
  let c2 :=
    if showingLive then
      { c1 with state := { c1.state with focusedTimestamp := c1.state.timestampNow } }
    else c1
  { c2 with liveModeCalls := c2.liveModeCalls ++ [showingLive] }

/-- Source `componentDidMount` interval body (the 1-second tick): refresh
`timestampNow` from the clock; when `hasLiveMode && showingLive`, focus it. -/
def tick (p : Props) (c : Component) (now : Int) : Component :=
  let timestampNow := formattedTimestamp now
  let c1 := { c with state := { c.state with timestampNow := timestampNow } }
  if p.hasLiveMode && c.state.showingLive then
    { c1 with state := { c1.state with focusedTimestamp := timestampNow } }
  else c1

/-- The debounce timer of `delayedOnChangeTimestamp` firing: deliver the
pending value, if any, and empty the slot. -/
def flushChange (c : Component) : Component :=
  match c.pendingChange with
  | none => c
  | some v => { c with pendingChange := none, changeCalls := c.changeCalls ++ [v] }

/-- Concrete session fixture: live mode enabled, initially paused, earliest
timestamp 0, external `timestamp` prop 500 ms. -/
def pLive : Props :=
  { timestamp := some 500
    earliestTimestamp := 0
    hasLiveMode := true
    showingLive := false
    hasRangeSelector := false
    rangeMs := 3600000 }

/-- Concrete component fixture: the `pLive` session mounted at clock 1000 ms
(state: `timestampNow = 1000`, `focusedTimestamp = 500`,
`durationMsPerPixel = 500`, paused). -/
def cLive : Component := initialComponent pLive 1000

/-- Concrete session fixture: live mode enabled and initially showing live. -/
def pLiveOn : Props :=
  { timestamp := some 500
    earliestTimestamp := 0
    hasLiveMode := true
    showingLive := true
    hasRangeSelector := false
    rangeMs := 3600000 }

/-- Concrete component fixture: the `pLiveOn` session mounted at clock
1000 ms. -/
def cLiveOn : Component := initialComponent pLiveOn 1000

/-- Helper: `setFocusedTimestamp` is the identity when the clamped timestamp
already equals the focused one. -/
theorem setFocusedTimestamp_of_eq (p : Props) (c : Component) (t : Int)
    (h : clampedTimestamp p c t = c.state.focusedTimestamp) :
    setFocusedTimestamp p c t = c := by
  simp only [setFocusedTimestamp]
  rw [if_neg]
  intro hne
  exact hne h

/-- Helper: `setFocusedTimestamp` when the clamped timestamp differs: cancel
the pending debounced change, deliver immediately, update the focus. -/
theorem setFocusedTimestamp_of_ne (p : Props) (c : Component) (t : Int)
    (h : clampedTimestamp p c t ≠ c.state.focusedTimestamp) :
    setFocusedTimestamp p c t =
      { c with
        pendingChange := none
        changeCalls := c.changeCalls ++ [clampedTimestamp p c t]
        state := { c.state with focusedTimestamp := clampedTimestamp p c t } } := by
  simp only [setFocusedTimestamp]
  rw [if_pos h]

/-- C8: for every timestamp `t`, when `earliestTimestamp ≤ timestampNow`,
`clampedTimestamp` lands in the closed interval
`[earliestTimestamp, timestampNow]`, and it is a fixed point whenever `t`
already lies in that interval. -/
theorem clampedTimestamp_mem_and_fixed (p : Props) (c : Component) (t : Int)
    (h : p.earliestTimestamp ≤ c.state.timestampNow) :
    p.earliestTimestamp ≤ clampedTimestamp p c t ∧
    clampedTimestamp p c t ≤ c.state.timestampNow ∧
    (p.earliestTimestamp ≤ t → t ≤ c.state.timestampNow → clampedTimestamp p c t = t) := by
  simp only [clampedTimestamp, formattedTimestamp]
  split_ifs <;> omega

/-- Witness for C8 at the `pLive`/`cLive` fixture with `t = 700`. -/
theorem clampedTimestamp_mem_and_fixed_witness :
    pLive.earliestTimestamp ≤ clampedTimestamp pLive cLive 700 ∧
    clampedTimestamp pLive cLive 700 ≤ cLive.state.timestampNow ∧
    (pLive.earliestTimestamp ≤ 700 → (700 : Int) ≤ cLive.state.timestampNow →
      clampedTimestamp pLive cLive 700 = 700) :=
  clampedTimestamp_mem_and_fixed pLive cLive 700 (by decide)

/-- C9: `maxDurationMsPerTimelinePx` is monotonically non-decreasing in the
span `now - earliest`. -/
theorem maxDurationMsPerTimelinePx_mono (e1 n1 e2 n2 : Int)
    (h : n1 - e1 ≤ n2 - e2) :
    maxDurationMsPerTimelinePx e1 n1 ≤ maxDurationMsPerTimelinePx e2 n2 := by
  have hq : ((n1 - e1 : Int) : ℚ) ≤ ((n2 - e2 : Int) : ℚ) := by exact_mod_cast h
  simp only [maxDurationMsPerTimelinePx, availableTimelineDurationMs,
    minDurationMsPerTimelinePx, formattedTimestamp, clamp]
  split_ifs <;> linarith

/-- Witness for C9 on the spans 100 ms and 200 ms. -/
theorem maxDurationMsPerTimelinePx_mono_witness :
    maxDurationMsPerTimelinePx 0 100 ≤ maxDurationMsPerTimelinePx 0 200 :=
  maxDurationMsPerTimelinePx_mono 0 100 0 200 (by decide)

/-- C10: `handleTimelineZoom` changes only `durationMsPerPixel` (to the
clamped candidate) and arms the telemetry report; every other state field,
the pending debounced change and all callback traces are untouched — in
particular `showingLive` is preserved, so zooming never exits live mode. -/
theorem handleTimelineZoom_frame (p : Props) (now : Int) (c : Component) (d : ℚ) :
    (handleTimelineZoom p now c d).state.durationMsPerPixel = clampedDuration p now d ∧
    (handleTimelineZoom p now c d).pendingZoomReport = true ∧
    (handleTimelineZoom p now c d).state.focusedTimestamp = c.state.focusedTimestamp ∧
    (handleTimelineZoom p now c d).state.showingLive = c.state.showingLive ∧
    (handleTimelineZoom p now c d).state.timestampNow = c.state.timestampNow ∧
    (handleTimelineZoom p now c d).state.rangeMs = c.state.rangeMs ∧
    (handleTimelineZoom p now c d).state.timelineWidthPx = c.state.timelineWidthPx ∧
    (handleTimelineZoom p now c d).pendingChange = c.pendingChange ∧
    (handleTimelineZoom p now c d).changeCalls = c.changeCalls ∧
    (handleTimelineZoom p now c d).liveModeCalls = c.liveModeCalls :=
  ⟨rfl, rfl, rfl, rfl, rfl, rfl, rfl, rfl, rfl, rfl⟩

/-- C5: two pans with no release, jump or timer expiry in between make no
immediate `onChangeTimestamp` call; when the debounce timer then fires,
exactly one call is delivered and its argument is the clamp of the second
pan's timestamp, after which nothing is pending. -/
theorem pan_pan_single_delivery (p : Props) (c : Component) (t1 t2 : Int) :
    (handleTimelinePan p c t1).changeCalls = c.changeCalls ∧
    (handleTimelinePan p (handleTimelinePan p c t1) t2).changeCalls = c.changeCalls ∧
    (flushChange (handleTimelinePan p (handleTimelinePan p c t1) t2)).changeCalls
      = c.changeCalls ++ [clampedTimestamp p c t2] ∧
    (flushChange (handleTimelinePan p (handleTimelinePan p c t1) t2)).pendingChange = none :=
  ⟨rfl, rfl, rfl, rfl⟩

/-- C1 counterexample: with the default props (`hasLiveMode = false`,
`showingLive` defaulting to true), the freshly constructed session already has
`showingLive = true`, and `toggleLive(true)` sets `showingLive` to true rather
than leaving it false. -/
theorem hasLiveMode_false_showingLive_counterexample :
    (defaultProps none).hasLiveMode = false ∧
    (initialComponent (defaultProps none) 1577836800000).state.showingLive = true ∧
    (handleLiveModeToggle (defaultProps none)
        (initialComponent (defaultProps none) 1577836800000) true).state.showingLive = true :=
  ⟨rfl, rfl, rfl⟩

/-- C1 amended: `hasLiveMode = false` does not force `showingLive` to false:
the initial state copies the `showingLive` prop (default true) and
`toggleLive(b)` stores `b` unconditionally; live-follow stays inert, since a
tick never moves `focusedTimestamp` when `hasLiveMode` is false. -/
theorem hasLiveMode_false_showingLive_amended (p : Props) (c : Component) (b : Bool)
    (now now2 : Int) (h : p.hasLiveMode = false) :
    (initialComponent p now).state.showingLive = p.showingLive ∧
    (handleLiveModeToggle p c b).state.showingLive = b ∧
    (tick p c now2).state.focusedTimestamp = c.state.focusedTimestamp := by
  refine ⟨rfl, ?_, ?_⟩
  · cases b <;> rfl
  · simp [tick, h]

/-- Witness for the amended C1 at the default props. -/
theorem hasLiveMode_false_showingLive_amended_witness :
    (initialComponent (defaultProps none) 1).state.showingLive = (defaultProps none).showingLive ∧
    (handleLiveModeToggle (defaultProps none)
        (initialComponent (defaultProps none) 3) true).state.showingLive = true ∧
    (tick (defaultProps none) (initialComponent (defaultProps none) 3) 2).state.focusedTimestamp
      = (initialComponent (defaultProps none) 3).state.focusedTimestamp :=
  hasLiveMode_false_showingLive_amended (defaultProps none)
    (initialComponent (defaultProps none) 3) true 1 2 rfl

/-- C2 counterexample: in the `pLive` session, `pan(700)` leaves a pending
debounced delivery; a subsequent `toggleLive(true)` does not cancel it, and
when the debounce timer fires after the toggle the stale value 700 is still
delivered to `onChangeTimestamp`. -/
theorem pending_fires_after_toggle_counterexample :
    (handleLiveModeToggle pLive (handleTimelinePan pLive cLive 700) true).pendingChange
      = some 700 ∧
    (flushChange (handleLiveModeToggle pLive
        (handleTimelinePan pLive cLive 700) true)).changeCalls = [700] :=
  ⟨rfl, rfl⟩

/-- C2 amended: a pending Change-channel delivery is cancelled by a subsequent
`jump(t)` only when `clampedTimestamp(t)` differs from the current
`focusedTimestamp` (the immediate delivery then replaces it); `toggleLive`
never cancels the pending delivery, which remains armed. -/
theorem cancellation_on_explicit_commit_amended (p : Props) (c : Component)
    (t : Int) (b : Bool) (h : clampedTimestamp p c t ≠ c.state.focusedTimestamp) :
    (handleTimelineJump p c t).pendingChange = none ∧
    (handleLiveModeToggle p c b).pendingChange = c.pendingChange := by
  constructor
  · have hj : handleTimelineJump p c t
        = setFocusedTimestamp p { c with state := { c.state with showingLive := false } } t :=
      rfl
    rw [hj,
      setFocusedTimestamp_of_ne p { c with state := { c.state with showingLive := false } } t h]
  · cases b <;> rfl

/-- Witness for the amended C2 at the `pLive`/`cLive` fixture: jumping to 700
(clamped 700, differing from the focus 500) cancels the pending delivery,
while a toggle preserves it. -/
theorem cancellation_on_explicit_commit_amended_witness :
    (handleTimelineJump pLive cLive 700).pendingChange = none ∧
    (handleLiveModeToggle pLive cLive true).pendingChange = cLive.pendingChange :=
  cancellation_on_explicit_commit_amended pLive cLive 700 true (by decide)

/-- C3 counterexample: the default-props session (where `hasLiveMode` is
false) starts with `showingLive = true`, yet after a tick the focused
timestamp (still the externally supplied 5) differs from the refreshed
`timestampNow`. -/
theorem live_tick_equality_counterexample :
    (initialComponent (defaultProps (some 5)) 1577836800000).state.showingLive = true ∧
    (defaultProps (some 5)).hasLiveMode = false ∧
    (tick (defaultProps (some 5))
        (initialComponent (defaultProps (some 5)) 1577836800000) 1577836801000).state.focusedTimestamp
      ≠ (tick (defaultProps (some 5))
        (initialComponent (defaultProps (some 5)) 1577836800000) 1577836801000).state.timestampNow := by
  refine ⟨rfl, rfl, ?_⟩
  decide

/-- C3 amended: when `hasLiveMode` and `showingLive` are both true,
`focusedTimestamp = timestampNow` immediately after any tick; and immediately
after `toggleLive(true)` (regardless of `hasLiveMode`),
`focusedTimestamp = timestampNow`. -/
theorem live_tick_equality_amended (p : Props) (c : Component) (now : Int) :
    (p.hasLiveMode = true → c.state.showingLive = true →
      (tick p c now).state.focusedTimestamp = (tick p c now).state.timestampNow) ∧
    (handleLiveModeToggle p c true).state.focusedTimestamp
      = (handleLiveModeToggle p c true).state.timestampNow := by
  refine ⟨fun h1 h2 => ?_, rfl⟩
  simp [tick, h1, h2]

/-- Witness for the amended C3: the tick conjunct at the live-enabled,
showing-live `pLiveOn`/`cLiveOn` fixture, and the unconditional toggle
conjunct at the default props, where `hasLiveMode` is false. -/
theorem live_tick_equality_amended_witness :
    ((tick pLiveOn cLiveOn 2000).state.focusedTimestamp
      = (tick pLiveOn cLiveOn 2000).state.timestampNow) ∧
    ((handleLiveModeToggle (defaultProps none)
          (initialComponent (defaultProps none) 7) true).state.focusedTimestamp
      = (handleLiveModeToggle (defaultProps none)
          (initialComponent (defaultProps none) 7) true).state.timestampNow) :=
  ⟨(live_tick_equality_amended pLiveOn cLiveOn 2000).1 rfl rfl,
   (live_tick_equality_amended (defaultProps none)
      (initialComponent (defaultProps none) 7) 0).2⟩

/-- C4 counterexample: over the ten-day span from 2020-01-01T00:00:00Z
(1,577,836,800,000 ms) to 2020-01-11T00:00:00Z (1,578,700,800,000 ms), the
maximum duration per pixel is not the 36,000,000 ms/px asserted by the spec. -/
theorem ten_day_span_zoom_counterexample :
    maxDurationMsPerTimelinePx 1577836800000 1578700800000 ≠ 36000000 := by
  norm_num [maxDurationMsPerTimelinePx, availableTimelineDurationMs,
    minDurationMsPerTimelinePx, clamp, formattedTimestamp]

/-- C4 amended: over the ten-day span, `maxDurationMsPerTimelinePx` is
10 days / 400 px = 2,160,000 ms/px, strictly below the 3-day-per-pixel
ceiling of 259,200,000 ms/px, and `initialDurationMsPerTimelinePx`
= clamp(216,000, 500, 60,000) = 60,000 ms/px. -/
theorem ten_day_span_zoom_amended :
    maxDurationMsPerTimelinePx 1577836800000 1578700800000 = 2160000 ∧
    maxDurationMsPerTimelinePx 1577836800000 1578700800000 < 259200000 ∧
    initialDurationMsPerTimelinePx 1577836800000 1578700800000 = 60000 := by
  norm_num [maxDurationMsPerTimelinePx, initialDurationMsPerTimelinePx,
    availableTimelineDurationMs, minDurationMsPerTimelinePx, clamp, formattedTimestamp]

/-- C6 counterexample: after `pan(700)` in the `pLive` session the focus and
the pending debounced value are both 700; `jump(700)` then clamps to the
unchanged focus, so contrary to the claim it does not cancel the pending
Change-channel call, which still fires when the timer expires. -/
theorem jump_cancels_pending_counterexample :
    (handleTimelineJump pLive (handleTimelinePan pLive cLive 700) 700).pendingChange
      = some 700 ∧
    (flushChange (handleTimelineJump pLive
        (handleTimelinePan pLive cLive 700) 700)).changeCalls = [700] :=
  ⟨rfl, rfl⟩

/-- C6 amended: `jump(t)` sets `showingLive` to false; when the clamped
timestamp differs from the current focus it cancels the pending Change-channel
call, delivers the clamped value immediately and stores it as the focus; when
they are equal it leaves the focus, the pending Change-channel call and the
delivery trace unchanged (so a delivery pending from an earlier pan survives
the jump). -/
theorem jump_cases (p : Props) (c : Component) (t : Int) :
    (handleTimelineJump p c t).state.showingLive = false ∧
    (clampedTimestamp p c t ≠ c.state.focusedTimestamp →
      (handleTimelineJump p c t).pendingChange = none ∧
      (handleTimelineJump p c t).changeCalls = c.changeCalls ++ [clampedTimestamp p c t] ∧
      (handleTimelineJump p c t).state.focusedTimestamp = clampedTimestamp p c t) ∧
    (clampedTimestamp p c t = c.state.focusedTimestamp →
      (handleTimelineJump p c t).pendingChange = c.pendingChange ∧
      (handleTimelineJump p c t).changeCalls = c.changeCalls ∧
      (handleTimelineJump p c t).state.focusedTimestamp = c.state.focusedTimestamp) := by
  have hj : handleTimelineJump p c t
      = setFocusedTimestamp p { c with state := { c.state with showingLive := false } } t :=
    rfl
  by_cases h : clampedTimestamp p c t = c.state.focusedTimestamp
  · have he :=
      setFocusedTimestamp_of_eq p { c with state := { c.state with showingLive := false } } t h
    rw [hj, he]
    exact ⟨rfl, fun hne => absurd h hne, fun _ => ⟨rfl, rfl, rfl⟩⟩
  · have he :=
      setFocusedTimestamp_of_ne p { c with state := { c.state with showingLive := false } } t h
    rw [hj, he]
    exact ⟨rfl, fun _ => ⟨rfl, rfl, rfl⟩, fun heq => absurd heq h⟩

/-- Witness for the amended C6 at the `pLive`/`cLive` fixture, in the
differing branch: jumping to 700 from focus 500. -/
theorem jump_cases_witness :
    (handleTimelineJump pLive cLive 700).state.showingLive = false ∧
    (handleTimelineJump pLive cLive 700).pendingChange = none ∧
    (handleTimelineJump pLive cLive 700).changeCalls
      = cLive.changeCalls ++ [clampedTimestamp pLive cLive 700] ∧
    (handleTimelineJump pLive cLive 700).state.focusedTimestamp
      = clampedTimestamp pLive cLive 700 := by
  have h := jump_cases pLive cLive 700
  exact ⟨h.1, (h.2.1 (by decide)).1, (h.2.1 (by decide)).2.1, (h.2.1 (by decide)).2.2⟩

/-- Helper: the zoom level of the `cLive` fixture evaluates to the 500 ms/px
floor. -/
theorem cLive_durationMsPerPixel : cLive.state.durationMsPerPixel = 500 := by
  norm_num [cLive, pLive, initialComponent, initialDurationMsPerTimelinePx,
    maxDurationMsPerTimelinePx, availableTimelineDurationMs, minDurationMsPerTimelinePx,
    clamp, formattedTimestamp]

/-- Helper: `handleTimelinePanButtonClick` in the sticky branch is
`setFocusedTimestamp` on the current time with `showingLive` switched on. -/
theorem panButton_of_sticky (p : Props) (c : Component) (t : Int)
    (hst : shouldStickySwitchToLiveMode p c (some t) = true) :
    handleTimelinePanButtonClick p c t
      = setFocusedTimestamp p { c with state := { c.state with showingLive := true } }
          c.state.timestampNow := by
  unfold handleTimelinePanButtonClick
  rw [if_pos hst]

/-- Helper: `handleTimelinePanButtonClick` in the non-sticky branch is
`setFocusedTimestamp` on the clicked timestamp with `showingLive` switched
off. -/
theorem panButton_of_not_sticky (p : Props) (c : Component) (t : Int)
    (hst : shouldStickySwitchToLiveMode p c (some t) = false) :
    handleTimelinePanButtonClick p c t
      = setFocusedTimestamp p { c with state := { c.state with showingLive := false } } t := by
  unfold handleTimelinePanButtonClick
  rw [if_neg]
  simp [hst]

/-- Helper: the current time is a fixed point of `clampedTimestamp` when the
earliest timestamp is not in the future. -/
theorem clampedTimestamp_now (p : Props) (c : Component)
    (h : p.earliestTimestamp ≤ c.state.timestampNow) :
    clampedTimestamp p c c.state.timestampNow = c.state.timestampNow := by
  simp only [clampedTimestamp, formattedTimestamp]
  split_ifs <;> omega

/-- C7 counterexample: in the `pLive`/`cLive` session (live supported, paused)
a pan-button click at timestamp 11000 puts `timestampNow` at pixel offset −20
— not within 10 pixels of zero — yet the final state has
`showingLive = true`, contradicting the claim's "otherwise" branch. -/
theorem panButton_sticky_counterexample :
    pLive.hasLiveMode = true ∧ cLive.state.showingLive = false ∧
    getTimeScale 11000 cLive.state.durationMsPerPixel cLive.state.timestampNow ≤ -10 ∧
    (handleTimelinePanButtonClick pLive cLive 11000).state.showingLive = true := by
  refine ⟨rfl, rfl, ?_, ?_⟩
  · rw [cLive_durationMsPerPixel]
    norm_num [getTimeScale, cLive, pLive, initialComponent, formattedTimestamp]
  · have hsticky : shouldStickySwitchToLiveMode pLive cLive (some 11000) = true := by
      simp only [shouldStickySwitchToLiveMode]
      norm_num [getTimeScale, cLive, pLive, initialComponent, initialDurationMsPerTimelinePx,
        maxDurationMsPerTimelinePx, availableTimelineDurationMs, minDurationMsPerTimelinePx,
        clamp, formattedTimestamp]
    rw [panButton_of_sticky pLive cLive 11000 hsticky,
      setFocusedTimestamp_of_ne pLive { cLive with state := { cLive.state with showingLive := true } }
        cLive.state.timestampNow (by decide)]

/-- C7 amended: the sticky heuristic compares the signed pixel offset of
`timestampNow` under the hypothetical post-gesture state against 10, not its
absolute value.  In a session with live mode supported and currently paused
(and a sane clock, `earliestTimestamp ≤ timestampNow`): if that offset is
below 10 px — including arbitrarily negative offsets, reached when the panned
timestamp lies beyond `timestampNow` — `panButton(t)` ends with
`showingLive = true` and `focusedTimestamp = timestampNow`, not the panned
value; if the offset is at least 10 px, `showingLive` is set to false and
`clampedTimestamp(t)` is committed as the focus. -/
theorem panButton_sticky_amended (p : Props) (c : Component) (t : Int)
    (h0 : p.earliestTimestamp ≤ c.state.timestampNow)
    (h1 : p.hasLiveMode = true) (h2 : c.state.showingLive = false) :
    (getTimeScale t c.state.durationMsPerPixel c.state.timestampNow < 10 →
      (handleTimelinePanButtonClick p c t).state.showingLive = true ∧
      (handleTimelinePanButtonClick p c t).state.focusedTimestamp = c.state.timestampNow) ∧
    (¬ getTimeScale t c.state.durationMsPerPixel c.state.timestampNow < 10 →
      (handleTimelinePanButtonClick p c t).state.showingLive = false ∧
      (handleTimelinePanButtonClick p c t).state.focusedTimestamp = clampedTimestamp p c t) := by
  have hs : shouldStickySwitchToLiveMode p c (some t)
      = decide (getTimeScale t c.state.durationMsPerPixel c.state.timestampNow < 10) := by
    simp [shouldStickySwitchToLiveMode, h1, h2]
  constructor
  · intro hlt
    have hsticky : shouldStickySwitchToLiveMode p c (some t) = true := by
      rw [hs]; exact decide_eq_true hlt
    rw [panButton_of_sticky p c t hsticky]
    have hcl : clampedTimestamp p { c with state := { c.state with showingLive := true } }
        c.state.timestampNow = c.state.timestampNow :=
      clampedTimestamp_now p { c with state := { c.state with showingLive := true } } h0
    by_cases heq : c.state.timestampNow = c.state.focusedTimestamp
    · have he := setFocusedTimestamp_of_eq p
        { c with state := { c.state with showingLive := true } }
        c.state.timestampNow (by rw [hcl]; exact heq)
      rw [he]
      exact ⟨rfl, heq.symm⟩
    · have he := setFocusedTimestamp_of_ne p
        { c with state := { c.state with showingLive := true } }
        c.state.timestampNow (by rw [hcl]; exact heq)
      rw [he]
      exact ⟨rfl, hcl⟩
  · intro hge
    have hsticky : shouldStickySwitchToLiveMode p c (some t) = false := by
      rw [hs]; exact decide_eq_false hge
    rw [panButton_of_not_sticky p c t hsticky]
    by_cases heq : clampedTimestamp p c t = c.state.focusedTimestamp
    · have he := setFocusedTimestamp_of_eq p
        { c with state := { c.state with showingLive := false } } t heq
      rw [he]
      exact ⟨rfl, heq.symm⟩
    · have he := setFocusedTimestamp_of_ne p
        { c with state := { c.state with showingLive := false } } t heq
      rw [he]
      exact ⟨rfl, rfl⟩

/-- Witness for the amended C7 at the `pLive`/`cLive` fixture, in the sticky
branch: clicking at 11000 gives offset −20 < 10, so the session snaps to live
at `timestampNow`. -/
theorem panButton_sticky_amended_witness :
    (handleTimelinePanButtonClick pLive cLive 11000).state.showingLive = true ∧
    (handleTimelinePanButtonClick pLive cLive 11000).state.focusedTimestamp
      = cLive.state.timestampNow :=
  (panButton_sticky_amended pLive cLive 11000 (by decide) rfl rfl).1
    (by
      rw [cLive_durationMsPerPixel]
      norm_num [getTimeScale, cLive, pLive, initialComponent, formattedTimestamp])

end TimeTravel
